import Mathlib

/-!
Verification of `src/tools/rls/src/config.rs` (RLS configuration handling).

The Rust code is shallowly embedded: `Inferrable<T>` becomes an inductive
type, mutating methods become state-passing functions, `PathBuf` becomes an
absolute-flag plus a list of components, and the Cargo oracle consulted by
`infer_defaults` (root manifest lookup, workspace construction, current
package and its targets) becomes an explicit `CargoEnv` record, so that
`infer_defaults` is a pure function of the configuration, the project
directory and the oracle's answers.
-/

namespace RLS

/-- `std::path::PathBuf`, modelled as an absolute-path flag plus the list of
path components. -/
structure PathBuf where
  absolute : Bool
  components : List String
deriving DecidableEq, Repr

def PathBuf.is_relative (p : PathBuf) : Bool := !p.absolute

/-- `Path::join`: an absolute right operand replaces the left one. -/
def PathBuf.join (p q : PathBuf) : PathBuf :=
  if q.absolute then q
  else { absolute := p.absolute, components := p.components ++ q.components }

/-- `Path::ends_with(child)`: the child's components are a suffix of the
path's components (component-wise, as in Rust). -/
def PathBuf.ends_with (p : PathBuf) (child : List String) : Bool :=
  child.isSuffixOf p.components

/-- `enum Inferrable<T>` from config.rs: `Specified` (explicit user value),
`Inferred` (server-inferred value), `None` (deserialized from a user `null`,
must be replaced before use). -/
inductive Inferrable (T : Type) where
  | specified : T → Inferrable T
  | inferred : T → Inferrable T
  | none : Inferrable T
deriving DecidableEq, Repr

/-- `Inferrable::is_none`. -/
def Inferrable.is_none {T : Type} : Inferrable T → Bool
  | Inferrable.none => true
  | _ => false

/-- `Inferrable::combine_with_default(&self, new, default)`, arms in source
order: a `Specified` current is kept over an `Inferred` incoming; a `None`
incoming becomes `Inferred(default)`; otherwise the incoming value is taken. -/
def Inferrable.combine_with_default {T : Type} (self new : Inferrable T) (default : T) :
    Inferrable T :=
  match self, new with
  | Inferrable.specified a, Inferrable.inferred _ => Inferrable.specified a
  | _, Inferrable.none => Inferrable.inferred default
  | _, _ => new

/-- `Inferrable::infer(&mut self, value)`: a no-op on `Specified`, otherwise
the field becomes `Inferred(value)`. State-passing form. -/
def Inferrable.infer {T : Type} (self : Inferrable T) (value : T) : Inferrable T :=
  match self with
  | Inferrable.specified _ => self
  | _ => Inferrable.inferred value

/-- `impl AsRef<T> for Inferrable<T>`: the contained value for
`Specified`/`Inferred`; the `None` arm is `unreachable!()` in the source and
is modelled as `Option.none` (the panic outcome). -/
def Inferrable.as_ref {T : Type} : Inferrable T → Option T
  | Inferrable.specified v => Option.some v
  | Inferrable.inferred v => Option.some v
  | Inferrable.none => Option.none

/-- `impl Deserialize for Inferrable<T>`: deserialize as `Option<T>`; `null`
gives the `None` variant, a present value gives `Specified`. -/
def Inferrable.deserialize {T : Type} (value : Option T) : Inferrable T :=
  match value with
  | Option.none => Inferrable.none
  | Option.some v => Inferrable.specified v

/-- `enum ClippyPreference`. -/
inductive ClippyPreference where
  | Off
  | OptIn
  | On
deriving DecidableEq, Repr

/-- Rust `str::to_lowercase`, character-wise (ASCII lowering is all the
accepted tokens need). -/
def to_lowercase (s : String) : String := String.mk (s.data.map Char.toLower)

/-- `impl FromStr for ClippyPreference`: lowercase the input, then match the
accepted tokens. -/
def ClippyPreference.from_str (s : String) : Except Unit ClippyPreference :=
  match to_lowercase s with
  | "off" => Except.ok ClippyPreference.Off
  | "optin" => Except.ok ClippyPreference.OptIn
  | "opt-in" => Except.ok ClippyPreference.OptIn
  | "on" => Except.ok ClippyPreference.On
  | _ => Except.error ()

/-- The `serde::de::Error::unknown_variant(value, &["on", "opt-in", "off"])`
error raised by `deserialize_clippy_preference`. -/
structure UnknownVariantError where
  variant : String
  expected : List String
deriving DecidableEq, Repr

/-- `deserialize_clippy_preference`: `FromStr` on the string value, with a
failure reported as an unknown-variant error naming the canonical tokens. -/
def deserialize_clippy_preference (value : String) : Except UnknownVariantError ClippyPreference :=
  match ClippyPreference.from_str value with
  | Except.ok v => Except.ok v
  | Except.error _ => Except.error { variant := value, expected := ["on", "opt-in", "off"] }

def DEFAULT_WAIT_TO_BUILD : Nat := 1500

/-- `struct Config` from config.rs, field for field. -/
structure Config where
  sysroot : Option String
  target : Option String
  rustflags : Option String
  build_lib : Inferrable Bool
  build_bin : Inferrable (Option String)
  cfg_test : Bool
  unstable_features : Bool
  wait_to_build : Nat
  show_warnings : Bool
  goto_def_racer_fallback : Bool
  workspace_mode : Bool
  clear_env_rust_log : Bool
  build_on_save : Bool
  use_crate_blacklist : Bool
  target_dir : Inferrable (Option PathBuf)
  features : List String
  all_features : Bool
  no_default_features : Bool
  jobs : Option Nat
  all_targets : Bool
  racer_completion : Bool
  clippy_preference : ClippyPreference
deriving DecidableEq, Repr

/-- `Config::normalise`, parameterized by the compile-time
`CFG_RELEASE_CHANNEL == "nightly"` test (`allow_unstable`). -/
def Config.normalise (allow_unstable : Bool) (c : Config) : Config :=
  if !allow_unstable then { c with unstable_features := false } else c

/-- `impl Default for Config`: the literal record from the source, then
`normalise`. -/
def Config.defaultConfig (allow_unstable : Bool) : Config :=
  Config.normalise allow_unstable
    { sysroot := Option.none
      target := Option.none
      rustflags := Option.none
      build_lib := Inferrable.inferred false
      build_bin := Inferrable.inferred Option.none
      cfg_test := false
      unstable_features := false
      wait_to_build := DEFAULT_WAIT_TO_BUILD
      show_warnings := true
      goto_def_racer_fallback := false
      workspace_mode := true
      clear_env_rust_log := true
      build_on_save := false
      use_crate_blacklist := true
      target_dir := Inferrable.inferred Option.none
      features := []
      all_features := false
      no_default_features := false
      jobs := Option.none
      all_targets := false
      racer_completion := true
      clippy_preference := ClippyPreference.OptIn }

/-- `Config::update(&mut self, mut new)`: the three `Inferrable` fields of
`new` are combined with the current ones; then the source writes
`self.workspace_mode = true;` (a dead store, kept here as the unused
`_pinned`) and finally `*self = new;`, so the function's result is the
combined `new`. -/
def Config.update (self new : Config) : Config :=
  let new := { new with
    target_dir := self.target_dir.combine_with_default new.target_dir Option.none
    build_lib := self.build_lib.combine_with_default new.build_lib false
    build_bin := self.build_bin.combine_with_default new.build_bin Option.none }
  let _pinned := { self with workspace_mode := true }
  new

/-- `Config::needs_inference`. -/
def Config.needs_inference (c : Config) : Bool :=
  c.build_bin.is_none || c.build_lib.is_none || c.target_dir.is_none

/-- A Cargo build target, reduced to the observations `infer_defaults`
makes of it: `is_lib()`, `is_bin()`, `src_path()`, `name()`. -/
structure Target where
  is_lib : Bool
  is_bin : Bool
  src_path : PathBuf
  name : String
deriving DecidableEq, Repr

/-- A Cargo package: its name and targets in oracle order. -/
structure Package where
  name : String
  targets : List Target
deriving DecidableEq, Repr

/-- Outcomes of the fallible steps of `infer_defaults`. `panicked` stands for
the `unreachable!()` in `as_ref` being hit. -/
inductive CargoError where
  | manifestNotFound
  | workspaceError
  | currentPackageError
  | noBinOrLibTarget
  | panicked
deriving DecidableEq, Repr

instance {E A : Type} [DecidableEq E] [DecidableEq A] : DecidableEq (Except E A) := fun a b =>
  match a, b with
  | Except.error e, Except.error f =>
    if h : e = f then Decidable.isTrue (by rw [h]) else Decidable.isFalse (by simp [h])
  | Except.error _, Except.ok _ => Decidable.isFalse (by simp)
  | Except.ok _, Except.error _ => Decidable.isFalse (by simp)
  | Except.ok x, Except.ok y =>
    if h : x = y then Decidable.isTrue (by rw [h]) else Decidable.isFalse (by simp [h])

/-- The Cargo oracle consulted by `infer_defaults`:
`important_paths::find_root_manifest_for_wd`, `Workspace::new`,
`ws.target_dir()` and `ws.current()`. -/
structure CargoEnv where
  root_manifest : Except Unit PathBuf
  workspace_ok : Bool
  ws_target_dir : PathBuf
  current_package : Except Unit Package
deriving DecidableEq, Repr

/-- The relative-path adjustment of the target-dir block of
`Config::infer_defaults` (source lines 244-250): a `Specified(Some(path))`
with a relative path is joined onto `project_dir`. -/
def Config.adjust_relative_target_dir (self : Config) (project_dir : PathBuf) : Config :=
  match self.target_dir with
  | Inferrable.specified (Option.some path) =>
    if path.is_relative then
      { self with target_dir := Inferrable.specified (Option.some (project_dir.join path)) }
    else self
  | _ => self

/-- The target-dir block of `Config::infer_defaults` (source lines 244-260):
the relative-path adjustment; then, when the held value is `None`, the
Cargo-reported workspace target dir joined with `"rls"` is inferred.
Hitting the `Inferrable::None` variant through `as_ref` is the
`unreachable!()` panic, modelled as `CargoError.panicked`. -/
def Config.target_dir_phase (self : Config) (project_dir : PathBuf) (env : CargoEnv) :
    Config × Except CargoError Unit :=
  let self := self.adjust_relative_target_dir project_dir
  match self.target_dir.as_ref with
  | Option.none => (self, Except.error CargoError.panicked)
  | Option.some dir =>
    if dir.isNone then
      ({ self with target_dir :=
          self.target_dir.infer (Option.some (env.ws_target_dir.join (PathBuf.mk false ["rls"]))) },
        Except.ok ())
    else (self, Except.ok ())

/-- The `(lib, bin)` selection block of `Config::infer_defaults` (source
lines 276-292): any library target selects `(true, None)`; otherwise the
first binary target is the fallback (`Option.none` result when there is
none), preferring a binary whose `src_path` ends with `main.rs`. -/
def select_target (targets : List Target) : Option (Bool × Option String) :=
  if targets.any (fun x => x.is_lib) then
    Option.some (true, (Option.none : Option String))
  else
    match (targets.filter (fun x => x.is_bin)).head? with
    | Option.none => Option.none
    | Option.some first =>
      let target :=
        match (targets.filter (fun x => x.is_bin)).find?
            (fun x => x.src_path.ends_with ["main.rs"]) with
        | Option.some main_bin => main_bin
        | Option.none => first
      Option.some (false, Option.some target.name)

/-- The tail of `Config::infer_defaults` once the current package's targets
are known (source lines 275-312): target selection, the `Err` on a package
with no `bin` or `lib` target, the user-override match on
`(build_lib, build_bin)`, and the two `infer` calls. -/
def Config.apply_target_selection (self : Config) (targets : List Target) :
    Config × Except CargoError Unit :=
  match select_target targets with
  | Option.none => (self, Except.error CargoError.noBinOrLibTarget)
  | Option.some libbin =>
    let libbin :=
      match self.build_lib, self.build_bin with
      | Inferrable.specified true, _ => (libbin.1, Option.none)
      | _, Inferrable.specified (Option.some _) => (false, libbin.2)
      | _, _ => libbin
    let self := { self with build_lib := self.build_lib.infer libbin.1 }
    let self := { self with build_bin := self.build_bin.infer libbin.2 }
    (self, Except.ok ())

/-- `Config::infer_defaults(&mut self, project_dir)`, state-passing over the
oracle `env`. It follows the source step by step: root manifest lookup
(`?`), workspace construction (`?`), the target-dir block, the early
return in workspace mode, the current package lookup (`?`), and the
target-selection tail. Returns the final configuration state together
with the `CargoResult`. -/
def Config.infer_defaults (self : Config) (project_dir : PathBuf) (env : CargoEnv) :
    Config × Except CargoError Unit :=
  match env.root_manifest with
  | Except.error _ => (self, Except.error CargoError.manifestNotFound)
  | Except.ok _manifest_path =>
    if !env.workspace_ok then (self, Except.error CargoError.workspaceError) else
    match self.target_dir_phase project_dir env with
    | (self, Except.error e) => (self, Except.error e)
    | (self, Except.ok ()) =>
      if self.workspace_mode then (self, Except.ok ()) else
      match env.current_package with
      | Except.error _ => (self, Except.error CargoError.currentPackageError)
      | Except.ok package =>
        self.apply_target_selection package.targets

/-- Field-level decoding of a `Config` update under the struct-level
`#[serde(default)]` attribute (source line 120): an absent field (outer
`Option.none`) takes the corresponding field of `Config::default()`,
passed in as `dflt`; a present field goes through `Inferrable`'s
deserializer (`null` gives the `None` variant, a value gives
`Specified`). -/
def deserialize_config_field {T : Type} (input : Option (Option T)) (dflt : Inferrable T) :
    Inferrable T :=
  match input with
  | Option.none => dflt
  | Option.some v => Inferrable.deserialize v

/-! ### Helper lemmas shared by the claim theorems -/

theorem combine_none_eq_inferred {T : Type} (cur : Inferrable T) (d : T) :
    cur.combine_with_default Inferrable.none d = Inferrable.inferred d := by
  cases cur <;> rfl

theorem combine_ne_none {T : Type} (cur new : Inferrable T) (d : T) :
    cur.combine_with_default new d ≠ Inferrable.none := by
  cases cur <;> cases new <;> simp [Inferrable.combine_with_default]

theorem as_ref_eq_none_iff {T : Type} (s : Inferrable T) :
    s.as_ref = Option.none ↔ s = Inferrable.none := by
  cases s <;> simp [Inferrable.as_ref]

theorem adjust_preserves (c : Config) (pd : PathBuf) :
    (c.adjust_relative_target_dir pd).build_lib = c.build_lib ∧
    (c.adjust_relative_target_dir pd).build_bin = c.build_bin ∧
    (c.adjust_relative_target_dir pd).workspace_mode = c.workspace_mode := by
  unfold Config.adjust_relative_target_dir
  split
  · split <;> exact ⟨rfl, rfl, rfl⟩
  · exact ⟨rfl, rfl, rfl⟩

theorem adjust_target_dir_ne_none (c : Config) (pd : PathBuf)
    (h : c.target_dir ≠ Inferrable.none) :
    (c.adjust_relative_target_dir pd).target_dir ≠ Inferrable.none := by
  unfold Config.adjust_relative_target_dir
  split
  · split
    · simp
    · exact h
  · exact h

theorem target_dir_phase_preserves (c : Config) (pd : PathBuf) (env : CargoEnv) :
    (c.target_dir_phase pd env).fst.build_lib = c.build_lib ∧
    (c.target_dir_phase pd env).fst.build_bin = c.build_bin ∧
    (c.target_dir_phase pd env).fst.workspace_mode = c.workspace_mode := by
  obtain ⟨h1, h2, h3⟩ := adjust_preserves c pd
  simp only [Config.target_dir_phase]
  split
  · exact ⟨h1, h2, h3⟩
  · split
    · exact ⟨h1, h2, h3⟩
    · exact ⟨h1, h2, h3⟩

theorem target_dir_phase_ok (c : Config) (pd : PathBuf) (env : CargoEnv)
    (h : c.target_dir ≠ Inferrable.none) :
    (c.target_dir_phase pd env).snd = Except.ok () := by
  have hne := adjust_target_dir_ne_none c pd h
  simp only [Config.target_dir_phase]
  split
  · rename_i heq
    exact absurd ((as_ref_eq_none_iff _).mp heq) hne
  · split <;> rfl

theorem infer_defaults_single_mode (c : Config) (pd : PathBuf) (env : CargoEnv)
    (pkg : Package) (m : PathBuf)
    (hmani : env.root_manifest = Except.ok m)
    (hws : env.workspace_ok = true)
    (htd : c.target_dir ≠ Inferrable.none)
    (hmode : c.workspace_mode = false)
    (hcur : env.current_package = Except.ok pkg) :
    c.infer_defaults pd env
      = ((c.target_dir_phase pd env).fst).apply_target_selection pkg.targets := by
  have hok := target_dir_phase_ok c pd env htd
  have hpres := target_dir_phase_preserves c pd env
  unfold Config.infer_defaults
  rw [hmani]
  rcases hp : c.target_dir_phase pd env with ⟨c1, r⟩
  rw [hp] at hok hpres
  simp only at hok
  subst hok
  have hwm : c1.workspace_mode = false := by
    simpa [hmode] using hpres.2.2
  simp [hws, hwm, hcur]

theorem select_target_lib (targets : List Target)
    (h : targets.any (fun x => x.is_lib) = true) :
    select_target targets = Option.some (true, Option.none) := by
  simp [select_target, h]

theorem select_target_empty (targets : List Target)
    (h : targets.any (fun x => x.is_lib) = false)
    (hb : targets.filter (fun x => x.is_bin) = []) :
    select_target targets = Option.none := by
  simp [select_target, h, hb]

theorem select_target_bin (targets : List Target)
    (h : targets.any (fun x => x.is_lib) = false)
    (first : Target) (rest : List Target)
    (hb : targets.filter (fun x => x.is_bin) = first :: rest) :
    select_target targets = Option.some (false, Option.some
      (match (targets.filter (fun x => x.is_bin)).find?
          (fun x => x.src_path.ends_with ["main.rs"]) with
        | Option.some main_bin => main_bin.name
        | Option.none => first.name)) := by
  simp only [select_target, h, Bool.false_eq_true, if_false, hb, List.head?]
  cases hf : (targets.filter (fun x => x.is_bin)).find?
      (fun x => x.src_path.ends_with ["main.rs"]) <;>
    rw [hb] at hf <;> simp [hf]

theorem apply_sel_no_override (c : Config) (targets : List Target) (lb : Bool × Option String)
    (hl : ∀ b, c.build_lib ≠ Inferrable.specified b)
    (hb : ∀ b, c.build_bin ≠ Inferrable.specified b)
    (hsel : select_target targets = Option.some lb) :
    c.apply_target_selection targets
      = ({ c with build_lib := Inferrable.inferred lb.1,
                  build_bin := Inferrable.inferred lb.2 }, Except.ok ()) := by
  unfold Config.apply_target_selection
  rw [hsel]
  rcases h1 : c.build_lib with b | b | _
  · exact absurd h1 (hl b)
  · rcases h2 : c.build_bin with b2 | b2 | _
    · exact absurd h2 (hb b2)
    · simp [h1, h2, Inferrable.infer]
    · simp [h1, h2, Inferrable.infer]
  · rcases h2 : c.build_bin with b2 | b2 | _
    · exact absurd h2 (hb b2)
    · simp [h1, h2, Inferrable.infer]
    · simp [h1, h2, Inferrable.infer]

theorem apply_sel_err (c : Config) (targets : List Target)
    (hsel : select_target targets = Option.none) :
    c.apply_target_selection targets = (c, Except.error CargoError.noBinOrLibTarget) := by
  unfold Config.apply_target_selection
  rw [hsel]

theorem apply_sel_spec_lib (c : Config) (targets : List Target) (lb : Bool × Option String)
    (hsel : select_target targets = Option.some lb)
    (hl : c.build_lib = Inferrable.specified true)
    (hb : ∀ b, c.build_bin ≠ Inferrable.specified b) :
    (c.apply_target_selection targets).snd = Except.ok () ∧
    (c.apply_target_selection targets).fst.build_bin = Inferrable.inferred Option.none := by
  unfold Config.apply_target_selection
  rw [hsel]
  rcases h2 : c.build_bin with b2 | b2 | _
  · exact absurd h2 (hb b2)
  all_goals simp [hl, h2, Inferrable.infer]

theorem apply_sel_spec_bin (c : Config) (targets : List Target) (lb : Bool × Option String)
    (hsel : select_target targets = Option.some lb)
    (hl : ∀ b, c.build_lib ≠ Inferrable.specified b)
    (n : String) (hb : c.build_bin = Inferrable.specified (Option.some n)) :
    (c.apply_target_selection targets).snd = Except.ok () ∧
    (c.apply_target_selection targets).fst.build_lib = Inferrable.inferred false ∧
    (c.apply_target_selection targets).fst.build_bin = Inferrable.specified (Option.some n) := by
  unfold Config.apply_target_selection
  rw [hsel]
  rcases h1 : c.build_lib with b | b | _
  · exact absurd h1 (hl b)
  all_goals simp [h1, hb, Inferrable.infer]

theorem from_str_not_accepted (s : String)
    (h : to_lowercase s ∉ (["off", "optin", "opt-in", "on"] : List String)) :
    ClippyPreference.from_str s = Except.error () := by
  unfold ClippyPreference.from_str
  split <;> simp_all

/-! ### Concrete records used by witnesses and counterexamples -/

/-- A single-package-mode configuration: the defaults with workspace mode
disabled. -/
def singleModeConfig : Config := { Config.defaultConfig true with workspace_mode := false }

def projDir : PathBuf := PathBuf.mk true ["proj"]

/-- An oracle for a project whose manifest and workspace resolve but whose
package has no targets at all. -/
def noTargetEnv : CargoEnv :=
  { root_manifest := Except.ok (PathBuf.mk true ["proj", "Cargo.toml"])
    workspace_ok := true
    ws_target_dir := PathBuf.mk true ["proj", "target"]
    current_package := Except.ok { name := "pkg", targets := [] } }

/-- An oracle that fails already at the root manifest lookup. -/
def earlyFailEnv : CargoEnv :=
  { root_manifest := Except.error ()
    workspace_ok := true
    ws_target_dir := PathBuf.mk true ["t"]
    current_package := Except.error () }

def libTarget : Target :=
  { is_lib := true, is_bin := false, src_path := PathBuf.mk false ["src", "lib.rs"],
    name := "mylib" }

/-- An oracle for a project whose package has one library target. -/
def libPkgEnv : CargoEnv :=
  { root_manifest := Except.ok (PathBuf.mk true ["proj", "Cargo.toml"])
    workspace_ok := true
    ws_target_dir := PathBuf.mk true ["proj", "target"]
    current_package := Except.ok { name := "pkg", targets := [libTarget] } }

/-! ### Claim theorems -/

/-- Claim C1: the claim says `Config::update` pins `workspace_mode` to
`true` regardless of the incoming record. The code writes
`self.workspace_mode = true;` and then immediately `*self = new;`, so the
pin is a dead store and the incoming `false` survives: updating a default
(workspace-mode `true`) record with a record whose `workspace_mode` is
`false` yields `false`, contradicting the code's own comment "Ignore
requests to disable workspace mode." -/
theorem update_does_not_pin_workspace_mode :
    (Config.update (Config.defaultConfig true)
        { Config.defaultConfig true with workspace_mode := false }).workspace_mode = false := by
  rfl

/-- Claim C2, counterexample: a field in state `Specified(true)` combined
with an incoming `None` (Unset) under default `false` is downgraded to
`Inferred(false)` — not a `Specified` state. -/
theorem combine_unset_downgrades_specified :
    Inferrable.combine_with_default (Inferrable.specified true) Inferrable.none false
        = Inferrable.inferred false ∧
    ∀ b : Bool,
      Inferrable.combine_with_default (Inferrable.specified true) Inferrable.none false
        ≠ Inferrable.specified b := by
  decide

/-- Claim C2 (amended): once a field is `Specified(a)`, `infer` leaves it
`Specified(a)`, and `combine_with_default` yields a `Specified` state for
every incoming value other than `None` (Unset); an incoming `None` instead
yields `Inferred(default)`. -/
theorem specified_absorbing (T : Type) (a v d : T) (new : Inferrable T)
    (h : new ≠ Inferrable.none) :
    (Inferrable.specified a).infer v = Inferrable.specified a ∧
    (∃ b, Inferrable.combine_with_default (Inferrable.specified a) new d
        = Inferrable.specified b) := by
  refine ⟨rfl, ?_⟩
  cases new with
  | specified b => exact ⟨b, rfl⟩
  | inferred b => exact ⟨a, rfl⟩
  | none => exact absurd rfl h

/-- Witness for `specified_absorbing` at `T = Bool`, `a = true`,
`new = Inferred(false)`, `d = false`. -/
theorem specified_absorbing_witness :
    (Inferrable.specified true).infer false = Inferrable.specified true ∧
    (∃ b, Inferrable.combine_with_default (Inferrable.specified true)
        (Inferrable.inferred false) false = Inferrable.specified b) :=
  specified_absorbing Bool true false false (Inferrable.inferred false) (by decide)

/-- Claim C3: `combine_with_default(current, incoming, d)` is total and
satisfies exactly the three-case specification: a `Specified` current
survives an `Inferred` incoming; a `None` (Unset) incoming yields
`Inferred(d)` for every current; in every other case (incoming `Specified`,
or incoming `Inferred` with current not `Specified`) the result is the
incoming value unchanged. -/
theorem combine_with_default_cases (T : Type) (cur new : Inferrable T) (d : T) :
    ((∃ a, cur = Inferrable.specified a) → (∃ b, new = Inferrable.inferred b) →
      Inferrable.combine_with_default cur new d = cur) ∧
    (new = Inferrable.none →
      Inferrable.combine_with_default cur new d = Inferrable.inferred d) ∧
    (((∃ b, new = Inferrable.specified b) ∨
        ((∃ b, new = Inferrable.inferred b) ∧ ∀ a, cur ≠ Inferrable.specified a)) →
      Inferrable.combine_with_default cur new d = new) := by
  cases cur <;> cases new <;> simp [Inferrable.combine_with_default]

/-- Claim C6: `infer(v1)` then `infer(v2)` leaves a `Specified(s)` field at
`Specified(s)` (each call a no-op), and drives a field that started
`Inferred` or `None` (Unset) to `Inferred(v2)`. -/
theorem infer_idempotent_non_overriding (T : Type) (s : Inferrable T) (v1 v2 : T) :
    (∀ a, s = Inferrable.specified a →
      (s.infer v1).infer v2 = Inferrable.specified a) ∧
    (∀ a, s = Inferrable.inferred a →
      (s.infer v1).infer v2 = Inferrable.inferred v2) ∧
    (s = Inferrable.none → (s.infer v1).infer v2 = Inferrable.inferred v2) := by
  cases s <;> simp [Inferrable.infer]

/-- Claim C8: the `as_ref` accessor returns the contained value for
`Specified(v)` and `Inferred(v)`, and hits the `unreachable!()` branch
(modelled as `Option.none`) exactly when the state is the `None` (Unset)
variant; under the precondition that the field is not Unset, the failing
branch is unreachable (some value is always returned). -/
theorem as_ref_unset_is_only_failure (T : Type) (s : Inferrable T) :
    (∀ v, s = Inferrable.specified v → s.as_ref = Option.some v) ∧
    (∀ v, s = Inferrable.inferred v → s.as_ref = Option.some v) ∧
    (s.as_ref = Option.none ↔ s = Inferrable.none) ∧
    (s ≠ Inferrable.none → ∃ v, s.as_ref = Option.some v) := by
  cases s <;> simp [Inferrable.as_ref]

/-- Claim C4, counterexample: with a resolvable manifest and workspace but
a package having no `bin` or `lib` target, `infer_defaults` fails with the
no-buildable-target error, yet the record is not left in its prior state:
`target_dir` retains the inference performed by the step that completed
before the failure. -/
theorem infer_defaults_keeps_earlier_inference :
    (singleModeConfig.infer_defaults projDir noTargetEnv).snd
        = Except.error CargoError.noBinOrLibTarget ∧
    (singleModeConfig.infer_defaults projDir noTargetEnv).fst.target_dir
        = Inferrable.inferred (Option.some (PathBuf.mk true ["proj", "target", "rls"])) ∧
    (singleModeConfig.infer_defaults projDir noTargetEnv).fst.target_dir
        ≠ singleModeConfig.target_dir := by
  decide

/-- Claim C4 (amended): `infer_defaults` is all-or-nothing only for the
failures raised before any field is mutated: when the root manifest lookup
or the workspace construction fails, an error is returned and the record
is left exactly in its prior state. A failure of a later step (package
inspection, no buildable target) can instead leave the already-inferred
`target_dir` behind. -/
theorem infer_defaults_early_failure_frame (c : Config) (pd : PathBuf) (env : CargoEnv)
    (h : (∃ e, env.root_manifest = Except.error e) ∨ env.workspace_ok = false) :
    (c.infer_defaults pd env).fst = c ∧
    ∃ err, (c.infer_defaults pd env).snd = Except.error err := by
  rcases h with ⟨e, he⟩ | hw
  · simp [Config.infer_defaults, he]
  · cases hm : env.root_manifest with
    | error e => simp [Config.infer_defaults, hm]
    | ok m => simp [Config.infer_defaults, hm, hw]

/-- Witness for `infer_defaults_early_failure_frame`: a failing manifest
lookup leaves the default configuration unchanged. -/
theorem infer_defaults_early_failure_frame_witness :
    ((Config.defaultConfig true).infer_defaults projDir earlyFailEnv).fst
        = Config.defaultConfig true ∧
    ∃ err, ((Config.defaultConfig true).infer_defaults projDir earlyFailEnv).snd
        = Except.error err :=
  infer_defaults_early_failure_frame (Config.defaultConfig true) projDir earlyFailEnv
    (Or.inl ⟨(), rfl⟩)

/-- Claim C5: in single-package mode, with the manifest, workspace and
current package all resolving and `target_dir` not Unset: (1) a package
with a library target infers `build_lib := true` and `build_bin := none`
(when neither was user-specified); (2) a package with neither a library
nor a binary target fails with the no-buildable-target error; (3)
otherwise the inferred binary is the one whose entry-point path ends with
`main.rs`, falling back to the first binary target in oracle order; (4) a
user-specified `build_lib = Specified(true)` turns the binary inference
into none; (5) a user-specified binary name turns the library inference
into `false` and is itself kept. -/
theorem infer_defaults_target_selection (c : Config) (pd : PathBuf) (env : CargoEnv)
    (pkg : Package) (m : PathBuf)
    (hmani : env.root_manifest = Except.ok m)
    (hws : env.workspace_ok = true)
    (htd : c.target_dir ≠ Inferrable.none)
    (hmode : c.workspace_mode = false)
    (hcur : env.current_package = Except.ok pkg) :
    ((∀ b, c.build_lib ≠ Inferrable.specified b) →
      (∀ b, c.build_bin ≠ Inferrable.specified b) →
      pkg.targets.any (fun x => x.is_lib) = true →
        (c.infer_defaults pd env).snd = Except.ok () ∧
        (c.infer_defaults pd env).fst.build_lib = Inferrable.inferred true ∧
        (c.infer_defaults pd env).fst.build_bin = Inferrable.inferred Option.none) ∧
    (pkg.targets.any (fun x => x.is_lib) = false →
      pkg.targets.filter (fun x => x.is_bin) = [] →
        (c.infer_defaults pd env).snd = Except.error CargoError.noBinOrLibTarget) ∧
    ((∀ b, c.build_lib ≠ Inferrable.specified b) →
      (∀ b, c.build_bin ≠ Inferrable.specified b) →
      pkg.targets.any (fun x => x.is_lib) = false →
      ∀ first rest, pkg.targets.filter (fun x => x.is_bin) = first :: rest →
        (c.infer_defaults pd env).snd = Except.ok () ∧
        (c.infer_defaults pd env).fst.build_lib = Inferrable.inferred false ∧
        (c.infer_defaults pd env).fst.build_bin = Inferrable.inferred (Option.some
          (match (pkg.targets.filter (fun x => x.is_bin)).find?
              (fun x => x.src_path.ends_with ["main.rs"]) with
            | Option.some main_bin => main_bin.name
            | Option.none => first.name))) ∧
    (c.build_lib = Inferrable.specified true →
      (∀ b, c.build_bin ≠ Inferrable.specified b) →
      (c.infer_defaults pd env).snd = Except.ok () →
        (c.infer_defaults pd env).fst.build_bin = Inferrable.inferred Option.none) ∧
    ((∀ b, c.build_lib ≠ Inferrable.specified b) →
      ∀ n, c.build_bin = Inferrable.specified (Option.some n) →
      (c.infer_defaults pd env).snd = Except.ok () →
        (c.infer_defaults pd env).fst.build_lib = Inferrable.inferred false ∧
        (c.infer_defaults pd env).fst.build_bin = Inferrable.specified (Option.some n)) := by
  have hred := infer_defaults_single_mode c pd env pkg m hmani hws htd hmode hcur
  obtain ⟨hb1, hb2, _⟩ := target_dir_phase_preserves c pd env
  refine ⟨?_, ?_, ?_, ?_, ?_⟩
  · intro hnl hnb hlib
    have hsel := select_target_lib pkg.targets hlib
    have happ := apply_sel_no_override (c.target_dir_phase pd env).fst pkg.targets
      (true, Option.none)
      (fun b hh => hnl b (hb1.symm.trans hh))
      (fun b hh => hnb b (hb2.symm.trans hh)) hsel
    rw [hred, happ]
    exact ⟨rfl, rfl, rfl⟩
  · intro hlib hempty
    have hsel := select_target_empty pkg.targets hlib hempty
    have happ := apply_sel_err (c.target_dir_phase pd env).fst pkg.targets hsel
    rw [hred, happ]
  · intro hnl hnb hlib first rest hbins
    have hsel := select_target_bin pkg.targets hlib first rest hbins
    have happ := apply_sel_no_override (c.target_dir_phase pd env).fst pkg.targets
      _ (fun b hh => hnl b (hb1.symm.trans hh))
      (fun b hh => hnb b (hb2.symm.trans hh)) hsel
    rw [hred, happ]
    exact ⟨rfl, rfl, rfl⟩
  · intro hsl hnb hok
    rw [hred] at hok ⊢
    cases hsel : select_target pkg.targets with
    | none =>
      rw [apply_sel_err _ _ hsel] at hok
      exact absurd hok (by simp)
    | some lb =>
      exact (apply_sel_spec_lib (c.target_dir_phase pd env).fst pkg.targets lb hsel
        (hb1.trans hsl) (fun b hh => hnb b (hb2.symm.trans hh))).2
  · intro hnl n hsb hok
    rw [hred] at hok ⊢
    cases hsel : select_target pkg.targets with
    | none =>
      rw [apply_sel_err _ _ hsel] at hok
      exact absurd hok (by simp)
    | some lb =>
      have h := apply_sel_spec_bin (c.target_dir_phase pd env).fst pkg.targets lb hsel
        (fun b hh => hnl b (hb1.symm.trans hh)) n (hb2.trans hsb)
      exact ⟨h.2.1, h.2.2⟩

/-- Witness for `infer_defaults_target_selection`: a single-package-mode
default configuration with a library-only package infers
`build_lib := true` and `build_bin := none`. -/
theorem infer_defaults_target_selection_witness :
    (singleModeConfig.infer_defaults projDir libPkgEnv).snd = Except.ok () ∧
    (singleModeConfig.infer_defaults projDir libPkgEnv).fst.build_lib
        = Inferrable.inferred true ∧
    (singleModeConfig.infer_defaults projDir libPkgEnv).fst.build_bin
        = Inferrable.inferred Option.none :=
  (infer_defaults_target_selection singleModeConfig projDir libPkgEnv
      { name := "pkg", targets := [libTarget] } (PathBuf.mk true ["proj", "Cargo.toml"])
      rfl rfl (by decide) rfl rfl).1
    (fun b hh => by simp [singleModeConfig, Config.defaultConfig, Config.normalise] at hh)
    (fun b hh => by simp [singleModeConfig, Config.defaultConfig, Config.normalise] at hh)
    (by decide)

/-- Claim C7: decoding an explicit `null` yields the Unset (`None`) state,
and merging through `update` turns each Unset tri-state field into
`Inferred` of the field's default (`None` for `target_dir` and
`build_bin`, `false` for `build_lib`); the merged record's tri-state
fields are never left Unset. -/
theorem update_null_round_trip (T : Type) (c n : Config) :
    Inferrable.deserialize (Option.none : Option T) = Inferrable.none ∧
    (n.target_dir = Inferrable.none →
      (c.update n).target_dir = Inferrable.inferred Option.none) ∧
    (n.build_lib = Inferrable.none →
      (c.update n).build_lib = Inferrable.inferred false) ∧
    (n.build_bin = Inferrable.none →
      (c.update n).build_bin = Inferrable.inferred Option.none) ∧
    (c.update n).target_dir ≠ Inferrable.none ∧
    (c.update n).build_lib ≠ Inferrable.none ∧
    (c.update n).build_bin ≠ Inferrable.none := by
  refine ⟨rfl, fun h => ?_, fun h => ?_, fun h => ?_, ?_, ?_, ?_⟩
  · simp [Config.update, h, combine_none_eq_inferred]
  · simp [Config.update, h, combine_none_eq_inferred]
  · simp [Config.update, h, combine_none_eq_inferred]
  · simp [Config.update, combine_ne_none]
  · simp [Config.update, combine_ne_none]
  · simp [Config.update, combine_ne_none]

/-- Claim C9: the permissive `ClippyPreference` decoder maps `"Optin"`,
`"opt-in"`, `"OFF"`, `"on"` to `OptIn`, `OptIn`, `Off`, `On`
(case-insensitively via lowercasing), and every input whose lowercasing is
not an accepted token fails with an unknown-variant error naming the three
canonical tokens `"on"`, `"opt-in"`, `"off"`. -/
theorem clippy_preference_decode :
    deserialize_clippy_preference "Optin" = Except.ok ClippyPreference.OptIn ∧
    deserialize_clippy_preference "opt-in" = Except.ok ClippyPreference.OptIn ∧
    deserialize_clippy_preference "OFF" = Except.ok ClippyPreference.Off ∧
    deserialize_clippy_preference "on" = Except.ok ClippyPreference.On ∧
    deserialize_clippy_preference "bogus"
      = Except.error { variant := "bogus", expected := ["on", "opt-in", "off"] } ∧
    ∀ s : String, to_lowercase s ∉ (["off", "optin", "opt-in", "on"] : List String) →
      deserialize_clippy_preference s
        = Except.error { variant := s, expected := ["on", "opt-in", "off"] } := by
  refine ⟨by decide, by decide, by decide, by decide, by decide, ?_⟩
  intro s h
  unfold deserialize_clippy_preference
  rw [from_str_not_accepted s h]

/-- Claim C10, counterexample: a tri-state field absent from the update
(outer `Option.none`) does not decode to the Unset (`None`) state — under
`#[serde(default)]` it takes the built-in default of the field, which for
`build_lib` is `Inferred(false)`. -/
theorem absent_field_decodes_to_inferred :
    deserialize_config_field Option.none (Config.defaultConfig true).build_lib
        = Inferrable.inferred false ∧
    deserialize_config_field Option.none (Config.defaultConfig true).build_lib
        ≠ Inferrable.none := by
  decide

/-- Claim C10 (amended): a present non-null value decodes to
`Specified(v)`; an explicit `null` decodes to the Unset (`None`) state; an
absent field takes the built-in default of the field (which for the three
tri-state fields of `Config::default()` is an `Inferred` value); hence a
decoded field is `Inferred` only when the built-in default supplied it —
never from a user-provided value. -/
theorem deserialize_field_states (T : Type) (input : Option (Option T)) (dflt : Inferrable T) :
    (∀ v, input = Option.some (Option.some v) →
      deserialize_config_field input dflt = Inferrable.specified v) ∧
    (input = Option.some Option.none →
      deserialize_config_field input dflt = Inferrable.none) ∧
    (input = Option.none → deserialize_config_field input dflt = dflt) ∧
    (∀ v, deserialize_config_field input dflt = Inferrable.inferred v →
      dflt = Inferrable.inferred v) ∧
    (Config.defaultConfig true).build_lib = Inferrable.inferred false ∧
    (Config.defaultConfig true).build_bin = Inferrable.inferred Option.none ∧
    (Config.defaultConfig true).target_dir = Inferrable.inferred Option.none := by
  refine ⟨?_, ?_, ?_, ?_, by decide, by decide, by decide⟩ <;>
    rcases input with _ | (_ | v) <;>
    simp [deserialize_config_field, Inferrable.deserialize]

end RLS
